import Mathlib

/-!
Shallow embedding of the SimulacionTrafico engine core
(`simulacion_trafico_engine/core/traffic_light.py`, `core/vehicle.py`,
`node/zone_node.py`) and proofs about the behaviour its specification
describes.

Modelling conventions:
* Python floats are modelled as exact rationals (`ℚ`).  Every float the
  embedded code manipulates is either copied verbatim, added/subtracted, or
  multiplied by a small literal and compared; no property proved here depends
  on behaviour within 1e-12 of a comparison boundary, where binary floats
  and rationals could disagree.  The one place where float rounding is
  observable -- the traffic-light timing table, built with
  `int(ratio * cycle_time)` -- is modelled by the exact result of the float
  computation (see `timingGreen` below).
* Python ints are `ℤ` (or `ℕ` for quantities that are non-negative by
  construction: tick counters, cycle lengths, capacities).
* `pygame.Rect` stores integer coordinates; `PyRect` mirrors the fields and
  the accessors the engine uses (`colliderect`, `collidepoint`, centers).
* Python dictionaries keyed by vehicle id (`ZoneNode.vehicles`) are
  association lists whose keys are unique; insertion appends, `del` filters.
* Attributes that CPython would resolve dynamically are fields; the one
  attribute the engine reads but never writes (`Vehicle.color`, read by
  `ZoneNode._check_and_handle_migrations_out`) is an `Option` that the
  `Vehicle` constructor leaves at `none`, so reading it through `match`
  mirrors the `AttributeError` the interpreter raises.
* RabbitMQ publishing is modelled by its observable outcome: a
  `publishOk : String → Bool` oracle saying whether the publish for a given
  routing key succeeds, plus the list of successfully published payloads.
  Metrics and pygame drawing calls have no effect on simulation state and
  are dropped.
-/

namespace SimTraffic

/-- Python `int(f)` on a float: truncation toward zero.  On the normalized
fraction num/den this is exactly `Int.tdiv` (division truncating toward
zero). -/
def pyInt (q : ℚ) : ℤ := q.num.tdiv q.den

/-- `pygame.Rect`: integer position and size. -/
structure PyRect where
  x : ℤ
  y : ℤ
  w : ℤ
  h : ℤ
deriving DecidableEq

def PyRect.left (r : PyRect) : ℤ := r.x

def PyRect.right (r : PyRect) : ℤ := r.x + r.w

def PyRect.top (r : PyRect) : ℤ := r.y

def PyRect.bottom (r : PyRect) : ℤ := r.y + r.h

/-- `Rect.centerx = x + w // 2` (sizes are non-negative in every use, where
floor, truncating and euclidean division coincide). -/
def PyRect.centerx (r : PyRect) : ℤ := r.x + r.w / 2

def PyRect.centery (r : PyRect) : ℤ := r.y + r.h / 2

/-- `Rect.colliderect`: strict overlap, touching edges do not collide. -/
def PyRect.colliderect (a b : PyRect) : Prop :=
  a.x < b.x + b.w ∧ a.x + a.w > b.x ∧ a.y < b.y + b.h ∧ a.y + a.h > b.y

instance (a b : PyRect) : Decidable (a.colliderect b) := by
  unfold PyRect.colliderect; infer_instance

/-- `Rect.collidepoint`: a point on the right or bottom edge is outside.
pygame truncates float arguments to C ints, so callers pass `pyInt`s. -/
def PyRect.collidepoint (r : PyRect) (px py : ℤ) : Prop :=
  r.x ≤ px ∧ px < r.x + r.w ∧ r.y ≤ py ∧ py < r.y + r.h

instance (r : PyRect) (px py : ℤ) : Decidable (r.collidepoint px py) := by
  unfold PyRect.collidepoint; infer_instance

/-! ## Traffic light (`core/traffic_light.py`) -/

/-- Direction a light is mounted in (`orientation` argument). -/
inductive Orient
  | vertical
  | horizontal
deriving DecidableEq

/-- `self.timings["green"] = int(0.45 * cycle_time)`.
The double nearest 0.45 is slightly above 9/20, and the exact value
9c/20 is either an integer (c ≡ 0 mod 20, where the float product truncates
to exactly that integer) or at least 1/20 away from one, far beyond the
rounding error of the product for every representable cycle time; so the
float computation truncates to ⌊9c/20⌋ = 9c/20 in natural division. -/
def timingGreen (cycle_time : ℕ) : ℕ := 9 * cycle_time / 20

/-- `self.timings["yellow"] = int(0.10 * cycle_time)`, same float analysis
as `timingGreen` with the double nearest 0.10. -/
def timingYellow (cycle_time : ℕ) : ℕ := cycle_time / 10

/-- `self.timings["red"] = cycle_time - (timings["green"] + timings["yellow"])`. -/
def timingRed (cycle_time : ℕ) : ℕ :=
  cycle_time - (timingGreen cycle_time + timingYellow cycle_time)

/-- `int(0.55 * cycle_time)`: the `initial_offset_factor = 0.55` used for the
second (horizontal-approach) pair of lights in
`ZoneMap.initialize_map_elements`; float analysis as for `timingGreen`. -/
def offsetTicks55 (cycle_time : ℕ) : ℕ := 11 * cycle_time / 20

/-- `TrafficLight._get_state_at_time`, parameterised by the timing table. -/
def getStateAtTime (green yellow : ℕ) (time_in_cycle : ℕ) : String :=
  if time_in_cycle < green then "green"
  else if time_in_cycle < green + yellow then "yellow"
  else "red"

/-- The state of `TrafficLight` that the engine reads. -/
structure TrafficLight where
  id : String
  rect : PyRect
  orientation : Orient
  cycle_time : ℕ
  timings_green : ℕ
  timings_yellow : ℕ
  timings_red : ℕ
  current_cycle_time : ℕ
  state : String
deriving DecidableEq

/-- `TrafficLight._get_state_at_time` reading the instance timing table. -/
def TrafficLight.stateAt (l : TrafficLight) (t : ℕ) : String :=
  getStateAtTime l.timings_green l.timings_yellow t

/-- `TrafficLight.__init__`.  `offsetTicks` is the already-truncated
`int(initial_offset_factor * cycle_time)` (0 for factor 0.0,
`offsetTicks55 c` for factor 0.55). -/
def mkTrafficLight (id : String) (px py pw ph : ℤ) (orientation : Orient)
    (cycle_time : ℕ) (offsetTicks : ℕ) : TrafficLight :=
  let g := timingGreen cycle_time
  let yl := timingYellow cycle_time
  { id := id
    rect := ⟨px, py, pw, ph⟩
    orientation := orientation
    cycle_time := cycle_time
    timings_green := g
    timings_yellow := yl
    timings_red := cycle_time - (g + yl)
    current_cycle_time := offsetTicks % cycle_time
    state := getStateAtTime g yl (offsetTicks % cycle_time) }

/-- `TrafficLight.update_async` (the state mutation; publishing and metrics
are external effects). -/
def update_async (l : TrafficLight) : TrafficLight :=
  let t := (l.current_cycle_time + 1) % l.cycle_time
  let new_state := l.stateAt t
  if new_state ≠ l.state then
    { l with current_cycle_time := t, state := new_state }
  else
    { l with current_cycle_time := t }

/-! ## Vehicle (`core/vehicle.py`) -/

/-- Travel direction (`direction` string field, one of the four values the
engine creates). -/
inductive Dir
  | up
  | down
  | left
  | right
deriving DecidableEq

/-- The simulation state of `Vehicle`.  `color` models the dynamically
resolved attribute `vehicle.color`: `core.Vehicle.__init__` accepts a
`color` argument but never assigns `self.color`, so on every vehicle the
engine constructs the field is `none` and an attribute read raises. -/
structure Vehicle where
  id : String
  global_x : ℚ
  global_y : ℚ
  speed : ℚ
  original_speed : ℚ
  direction : Dir
  stopped : Bool
  current_zone_id : String
  draw_width : ℤ
  draw_height : ℤ
  rect : PyRect
  is_despawned_globally : Bool
  color : Option (ℕ × ℕ × ℕ)
deriving DecidableEq

/-- `Vehicle.__init__` (the simulation-relevant part: asset loading only
fixes the draw size, 40x20 for horizontal vehicles and 20x40 for vertical
ones).  The `color` argument is accepted but never stored, hence
`color := none`. -/
def mkVehicle (id : String) (global_x global_y : ℚ) (speed : ℚ)
    (original_speed : Option ℚ) (direction : Dir) (current_zone_id : String) :
    Vehicle :=
  let dw : ℤ := match direction with
    | Dir.left | Dir.right => 40
    | Dir.up | Dir.down => 20
  let dh : ℤ := match direction with
    | Dir.left | Dir.right => 20
    | Dir.up | Dir.down => 40
  { id := id
    global_x := global_x
    global_y := global_y
    speed := speed
    original_speed := original_speed.getD speed
    direction := direction
    stopped := false
    current_zone_id := current_zone_id
    draw_width := dw
    draw_height := dh
    rect := ⟨0, 0, dw, dh⟩
    is_despawned_globally := false
    color := none }

/-- `Vehicle.get_global_rect`. -/
def getGlobalRect (v : Vehicle) : PyRect :=
  ⟨pyInt v.global_x, pyInt v.global_y, v.draw_width, v.draw_height⟩

/-- `Vehicle.stop`: only acts on a vehicle that is not already stopped. -/
def Vehicle.stop (v : Vehicle) : Vehicle :=
  if v.stopped then v else { v with stopped := true, speed := 0 }

/-- `Vehicle.resume_speed`. -/
def Vehicle.resume_speed (v : Vehicle) : Vehicle :=
  { v with speed := v.original_speed }

/-- `Vehicle.resume`: only acts on a stopped vehicle. -/
def Vehicle.resume (v : Vehicle) : Vehicle :=
  if v.stopped then Vehicle.resume_speed { v with stopped := false } else v

/-- The local collision rect `update_in_zone` maintains:
`rect.topleft = (int(local_x), int(local_y))`, size = draw size. -/
def localRectOf (v : Vehicle) (zone_global_offset_x zone_global_offset_y : ℤ) :
    PyRect :=
  ⟨pyInt (v.global_x - (zone_global_offset_x : ℚ)),
   pyInt (v.global_y - (zone_global_offset_y : ℚ)),
   v.draw_width, v.draw_height⟩

/-- One eligibility test of `Vehicle._get_relevant_light_local`: if the
light governs the vehicle travel axis, lies ahead of it and is laterally
aligned within `light-size * 0.6`, return the edge distance. -/
def lightEligibleDist (v : Vehicle) (l : TrafficLight) : Option ℤ :=
  let correct_orientation : Bool :=
    match v.direction with
    | Dir.right | Dir.left => decide (l.orientation = Orient.vertical)
    | Dir.up | Dir.down => decide (l.orientation = Orient.horizontal)
  if !correct_orientation then none
  else
    match v.direction with
    | Dir.right =>
        if l.rect.left ≥ v.rect.right ∧
            (((l.rect.centery - v.rect.centery).natAbs : ℕ) : ℚ) <
              (l.rect.h : ℚ) * (6/10) then
          some (l.rect.left - v.rect.right)
        else none
    | Dir.left =>
        if l.rect.right ≤ v.rect.left ∧
            (((l.rect.centery - v.rect.centery).natAbs : ℕ) : ℚ) <
              (l.rect.h : ℚ) * (6/10) then
          some (v.rect.left - l.rect.right)
        else none
    | Dir.down =>
        if l.rect.top ≥ v.rect.bottom ∧
            (((l.rect.centerx - v.rect.centerx).natAbs : ℕ) : ℚ) <
              (l.rect.w : ℚ) * (6/10) then
          some (l.rect.top - v.rect.bottom)
        else none
    | Dir.up =>
        if l.rect.bottom ≤ v.rect.top ∧
            (((l.rect.centerx - v.rect.centerx).natAbs : ℕ) : ℚ) <
              (l.rect.w : ℚ) * (6/10) then
          some (v.rect.top - l.rect.bottom)
        else none

/-- `Vehicle._get_relevant_light_local`: among eligible lights within the
lookahead distance `original_speed * 20 + draw_width`, keep the strictly
nearest (first light wins ties, as in the Python scan). -/
def getRelevantLightLocal (v : Vehicle) (zone_traffic_lights : List TrafficLight) :
    Option TrafficLight :=
  (zone_traffic_lights.foldl
    (fun acc l =>
      match lightEligibleDist v l with
      | none => acc
      | some d =>
        if 0 ≤ d ∧ (d : ℚ) < v.original_speed * 20 + (v.draw_width : ℚ) then
          match acc with
          | none => some (d, l)
          | some (d0, _) => if d < d0 then some (d, l) else acc
        else acc)
    none).map Prod.snd

/-- The signed stop-edge distance of `Vehicle._check_action_at_light_local`. -/
def distToLightEdge (v : Vehicle) (l : TrafficLight) : ℤ :=
  match v.direction with
  | Dir.right => l.rect.left - v.rect.right
  | Dir.left => v.rect.left - l.rect.right
  | Dir.down => l.rect.top - v.rect.bottom
  | Dir.up => v.rect.top - l.rect.bottom

/-- `stopping_decision_threshold = original_speed * 2.5 + draw_width * 0.3`. -/
def stoppingDecisionThreshold (v : Vehicle) : ℚ :=
  v.original_speed * (5/2) + (v.draw_width : ℚ) * (3/10)

/-- `stop_past_line_threshold = -draw_width * 0.5`. -/
def stopPastLineThreshold (v : Vehicle) : ℚ :=
  -((v.draw_width : ℚ) * (5/10))

/-- `yellow_stop_threshold = original_speed * 1.5 + draw_width * 0.1`. -/
def yellowStopThreshold (v : Vehicle) : ℚ :=
  v.original_speed * (3/2) + (v.draw_width : ℚ) * (1/10)

/-- `Vehicle._check_action_at_light_local`. -/
def checkActionAtLightLocal (v : Vehicle)
    (zone_traffic_lights : List TrafficLight) : String :=
  match getRelevantLightLocal v zone_traffic_lights with
  | none => "proceed"
  | some l =>
    let d : ℚ := (distToLightEdge v l : ℚ)
    if d < stoppingDecisionThreshold v ∧ d > stopPastLineThreshold v then
      if l.state = "red" then "stop"
      else if l.state = "yellow" then
        if d < yellowStopThreshold v ∧ d > stopPastLineThreshold v then "stop"
        else "proceed"
      else "proceed"
    else "proceed"

/-- The front-collision test of `Vehicle.update_in_zone` against one other
vehicle (already known to overlap). -/
def isFrontCollision (v o : Vehicle) : Prop :=
  match v.direction with
  | Dir.right =>
      o.rect.left > v.rect.centerx ∧
      (o.rect.left : ℚ) < (v.rect.right : ℚ) + (v.draw_width : ℚ) * (2/10) ∧
      (((v.rect.centery - o.rect.centery).natAbs : ℕ) : ℚ) <
        ((v.draw_height : ℚ) + (o.draw_height : ℚ)) / 2 * (9/10)
  | Dir.left =>
      o.rect.right < v.rect.centerx ∧
      (o.rect.right : ℚ) > (v.rect.left : ℚ) - (v.draw_width : ℚ) * (2/10) ∧
      (((v.rect.centery - o.rect.centery).natAbs : ℕ) : ℚ) <
        ((v.draw_height : ℚ) + (o.draw_height : ℚ)) / 2 * (9/10)
  | Dir.down =>
      o.rect.top > v.rect.centery ∧
      (o.rect.top : ℚ) < (v.rect.bottom : ℚ) + (v.draw_height : ℚ) * (2/10) ∧
      (((v.rect.centerx - o.rect.centerx).natAbs : ℕ) : ℚ) <
        ((v.draw_width : ℚ) + (o.draw_width : ℚ)) / 2 * (9/10)
  | Dir.up =>
      o.rect.bottom < v.rect.centery ∧
      (o.rect.bottom : ℚ) > (v.rect.top : ℚ) - (v.draw_height : ℚ) * (2/10) ∧
      (((v.rect.centerx - o.rect.centerx).natAbs : ℕ) : ℚ) <
        ((v.draw_width : ℚ) + (o.draw_width : ℚ)) / 2 * (9/10)

instance (v o : Vehicle) : Decidable (isFrontCollision v o) := by
  unfold isFrontCollision
  cases v.direction <;> infer_instance

/-- The collision-avoidance scan of `Vehicle.update_in_zone`: the Python
loop stops the vehicle at the first overlapping front vehicle; whether one
exists is all that determines the resulting state. -/
def hasFrontCollision (v : Vehicle) (zone_vehicles : List Vehicle) : Prop :=
  ∃ o ∈ zone_vehicles,
    o.id ≠ v.id ∧ o.is_despawned_globally = false ∧
    v.rect.colliderect o.rect ∧ isFrontCollision v o

instance (v : Vehicle) (zone_vehicles : List Vehicle) :
    Decidable (hasFrontCollision v zone_vehicles) := by
  unfold hasFrontCollision; infer_instance

/-- The tentative advance of `Vehicle.update_in_zone`: move by `speed`
along `direction`. -/
def moveByDirection (v : Vehicle) : Vehicle :=
  match v.direction with
  | Dir.right => { v with global_x := v.global_x + v.speed }
  | Dir.left => { v with global_x := v.global_x - v.speed }
  | Dir.up => { v with global_y := v.global_y - v.speed }
  | Dir.down => { v with global_y := v.global_y + v.speed }

/-- Tentative advance plus the local-rect update that follows it. -/
def tentativeMove (v : Vehicle) (ox oy : ℤ) : Vehicle :=
  let m := moveByDirection v
  { m with rect := localRectOf m ox oy }

/-- The movement phase of `Vehicle.update_in_zone` (everything after the
stopped-vehicle early return): move, possibly revert and stop for a light
or a front collision, else commit and restore a zero speed. -/
def updateMovePhase (v : Vehicle) (zone_traffic_lights : List TrafficLight)
    (zone_vehicles : List Vehicle) (ox oy : ℤ)
    (oldX oldY : ℚ) (oldRect : PyRect) : Vehicle :=
  let m := tentativeMove v ox oy
  if checkActionAtLightLocal m zone_traffic_lights = "stop" then
    Vehicle.stop { m with global_x := oldX, global_y := oldY, rect := oldRect }
  else if hasFrontCollision m zone_vehicles then
    Vehicle.stop { m with global_x := oldX, global_y := oldY, rect := oldRect }
  else if m.stopped = false ∧ m.speed = 0 then Vehicle.resume_speed m
  else m

/-- `Vehicle.update_in_zone`.  `zone_width`/`zone_height` are accepted and
unused, as in the source.  State-publication and metrics calls are external
effects with no influence on the returned state. -/
def updateInZone (v : Vehicle) (zone_traffic_lights : List TrafficLight)
    (zone_vehicles : List Vehicle) (zone_width zone_height : ℤ)
    (zone_global_offset_x zone_global_offset_y : ℤ) : Vehicle :=
  if v.is_despawned_globally then v
  else
    let oldX := v.global_x
    let oldY := v.global_y
    let r0 := localRectOf v zone_global_offset_x zone_global_offset_y
    let v0 := { v with rect := r0 }
    if v.stopped then
      if checkActionAtLightLocal v0 zone_traffic_lights = "proceed" then
        updateMovePhase v0.resume zone_traffic_lights zone_vehicles
          zone_global_offset_x zone_global_offset_y oldX oldY r0
      else v0
    else
      updateMovePhase v0 zone_traffic_lights zone_vehicles
        zone_global_offset_x zone_global_offset_y oldX oldY r0

/-! ## Zone node (`node/zone_node.py`) -/

/-- The `vehicle_state` dictionary of a migration message.  Fields the
receiver reads through `dict.get` are `Option`s (absent key = `none`);
`position` is accessed with `[]` and is therefore mandatory.  The sender
(`_check_and_handle_migrations_out`) fills every field. -/
structure MigrationVehicleState where
  id : Option String
  posX : ℚ
  posY : ℚ
  speed : Option ℚ
  direction : Option Dir
  stopped : Bool
  width : Option ℤ
  height : Option ℤ
  original_speed : Option ℚ
  color_tuple : ℕ × ℕ × ℕ
deriving DecidableEq

/-- A `vehicle_migration` message as published by
`_check_and_handle_migrations_out`. -/
structure MigrationPayload where
  id : String
  current_zone : String
  target_zone : String
  vehicle_state : MigrationVehicleState
deriving DecidableEq

/-- The state of `ZoneNode` that the migration and spawning logic uses.
`vehicles` is the id-keyed dict as an association list with unique keys;
`zones` is `global_city_config["zones"]` reduced to id and bounds. -/
structure ZoneNode where
  zone_id : String
  bounds : PyRect
  vehicles : List (String × Vehicle)
  max_vehicles_in_zone : ℕ
  adjacencies : List String
  zones : List (String × PyRect)
  manual_spawn_pending : Bool
deriving DecidableEq

/-- `veh_id in self.vehicles` (dict key membership). -/
def containsVeh (z : ZoneNode) (vid : String) : Bool :=
  z.vehicles.any (fun e => e.1 == vid)

/-- Number of entries stored under a key (1 or 0 for a dict). -/
def countVeh (z : ZoneNode) (vid : String) : ℕ :=
  (z.vehicles.filter (fun e => e.1 == vid)).length

/-- The vehicle that `_handle_incoming_vehicle_migration` reconstructs from
a snapshot: the `Vehicle` constructor call with the `dict.get` default
chains of the source.  The snapshot `stopped` flag is not passed (the
constructor has no such parameter), and the `width`/`height` arguments are
accepted by the constructor but unused. -/
def reconstructMigratedVehicle (zone_id : String) (vs : MigrationVehicleState)
    (vid : String) : Vehicle :=
  mkVehicle vid vs.posX vs.posY
    (vs.speed.getD (vs.original_speed.getD 2))
    (some (vs.original_speed.getD (vs.speed.getD 2)))
    (vs.direction.getD Dir.right)
    zone_id

/-- `ZoneNode._handle_incoming_vehicle_migration`: reject a missing or
falsy id, a duplicate id, or a full zone; otherwise insert the
reconstructed vehicle. -/
def handleIncomingVehicleMigration (z : ZoneNode) (p : MigrationPayload) :
    ZoneNode :=
  match p.vehicle_state.id with
  | none => z
  | some vid =>
    if vid = "" then z
    else if containsVeh z vid then z
    else if z.max_vehicles_in_zone ≤ z.vehicles.length then z
    else
      { z with vehicles :=
          z.vehicles ++
            [(vid, reconstructMigratedVehicle z.zone_id p.vehicle_state vid)] }

/-- One entry of `ZoneMap.get_spawn_points_local`. -/
structure SpawnPoint where
  x : ℤ
  y : ℤ
  direction : Dir
deriving DecidableEq

/-- `ZoneNode._spawn_new_vehicle_at_entry`.  The random draws are inputs:
`pick` indexes the chosen spawn point, `new_id` is the generated uuid name,
`spd` the uniform(1.8, 3.8) speed.  At or above capacity, or with no spawn
point available, nothing is inserted. -/
def spawnNewVehicleAtEntry (z : ZoneNode) (spawn_points_local : List SpawnPoint)
    (pick : ℕ) (new_id : String) (spd : ℚ) : ZoneNode :=
  if z.max_vehicles_in_zone ≤ z.vehicles.length then z
  else
    match spawn_points_local[pick]? with
    | none => z
    | some sp =>
      let gx : ℚ := ((z.bounds.x + sp.x : ℤ) : ℚ)
      let gy : ℚ := ((z.bounds.y + sp.y : ℤ) : ℚ)
      { z with vehicles :=
          z.vehicles ++ [(new_id, mkVehicle new_id gx gy spd none sp.direction z.zone_id)] }

/-- `ZoneNode.trigger_manual_spawn`: set the pending flag and report `True`
only when under capacity. -/
def triggerManualSpawn (z : ZoneNode) : ZoneNode × Bool :=
  if z.vehicles.length < z.max_vehicles_in_zone then
    ({ z with manual_spawn_pending := true }, true)
  else (z, false)

/-- `ZoneNode._determine_target_zone` over the adjacency list: first
adjacent zone whose declared bounds contain the vehicle float center
(truncated by pygame to ints). -/
def determineTargetZoneAux (zones : List (String × PyRect)) (v : Vehicle) :
    List String → Option String
  | [] => none
  | adj_id :: rest =>
    match zones.find? (fun zc => zc.1 == adj_id) with
    | none => determineTargetZoneAux zones v rest
    | some zc =>
      let cx : ℚ := v.global_x + (v.draw_width : ℚ) / 2
      let cy : ℚ := v.global_y + (v.draw_height : ℚ) / 2
      if zc.2.collidepoint (pyInt cx) (pyInt cy) then some adj_id
      else determineTargetZoneAux zones v rest

def determineTargetZone (z : ZoneNode) (v : Vehicle) : Option String :=
  determineTargetZoneAux z.zones v z.adjacencies

/-- The migration snapshot `_check_and_handle_migrations_out` publishes
(after a successful `vehicle.color` read yielding `c`). -/
def mkMigrationPayload (zone_id : String) (v : Vehicle) (target_zone : String)
    (c : ℕ × ℕ × ℕ) : MigrationPayload :=
  { id := v.id
    current_zone := zone_id
    target_zone := target_zone
    vehicle_state :=
      { id := some v.id
        posX := v.global_x
        posY := v.global_y
        speed := some v.speed
        direction := some v.direction
        stopped := v.stopped
        width := some v.draw_width
        height := some v.draw_height
        original_speed := some v.original_speed
        color_tuple := c } }

/-- Outcome of the per-vehicle body of the `_check_and_handle_migrations_out`
loop: an uncaught exception, or the (possibly updated) entry together with
an id queued for removal and a payload that was published. -/
inductive MigStepResult
  | err (msg : String)
  | ok (entry : String × Vehicle) (removeId : Option String)
      (outMsg : Option MigrationPayload)
deriving DecidableEq

/-- One iteration of the migration-out loop.  `hasExchange` models the
`self.rabbit_client and self.rabbit_client.async_exchange` guard;
`publishOk tz` tells whether `publish_async` to routing key `tz` succeeds
(its exception is caught, and only a successful publish queues the vehicle
for removal).  Reading `vehicle.color` on a vehicle whose `color` was never
assigned raises, which nothing catches. -/
def migStep (z : ZoneNode) (hasExchange : Bool) (publishOk : String → Bool)
    (e : String × Vehicle) : MigStepResult :=
  let vid := e.1
  let veh := e.2
  if veh.is_despawned_globally then MigStepResult.ok e (some vid) none
  else
    let r := getGlobalRect veh
    if z.bounds.collidepoint r.centerx r.centery then MigStepResult.ok e none none
    else
      match determineTargetZone z veh with
      | some tz =>
        match veh.color with
        | none => MigStepResult.err "AttributeError: Vehicle has no attribute color"
        | some c =>
          if hasExchange then
            if publishOk tz then
              MigStepResult.ok e (some vid) (some (mkMigrationPayload z.zone_id veh tz c))
            else MigStepResult.ok e none none
          else MigStepResult.ok e none none
      | none =>
        MigStepResult.ok (vid, { veh with is_despawned_globally := true })
          (some vid) none

/-- The scan over all vehicles: the updated entries, the removal queue, the
payloads published so far, and the first uncaught exception if one was
raised (defeating the removal pass but not messages already published). -/
def migScan (z : ZoneNode) (hasExchange : Bool) (publishOk : String → Bool) :
    List (String × Vehicle) →
    List (String × Vehicle) × List String × List MigrationPayload × Option String
  | [] => ([], [], [], none)
  | e :: rest =>
    match migStep z hasExchange publishOk e with
    | MigStepResult.err m => (e :: rest, [], [], some m)
    | MigStepResult.ok e2 rid om =>
      let tail := migScan z hasExchange publishOk rest
      (e2 :: tail.1, rid.toList ++ tail.2.1, om.toList ++ tail.2.2.1, tail.2.2.2)

/-- The deletion pass `for vid in vehicles_to_remove_ids: del ...` on a
unique-key association list. -/
def removeIds (vs : List (String × Vehicle)) (ids : List String) :
    List (String × Vehicle) :=
  ids.foldl (fun acc i => acc.filter (fun e => e.1 ≠ i)) vs

/-- Result of `ZoneNode._check_and_handle_migrations_out`: the zone state
afterwards, the successfully published migration payloads, and the uncaught
exception, if any, that aborted the tick. -/
structure MigOutResult where
  zone : ZoneNode
  published : List MigrationPayload
  error : Option String
deriving DecidableEq

/-- `ZoneNode._check_and_handle_migrations_out`. -/
def checkAndHandleMigrationsOut (z : ZoneNode) (hasExchange : Bool)
    (publishOk : String → Bool) : MigOutResult :=
  let scan := migScan z hasExchange publishOk z.vehicles
  match scan.2.2.2 with
  | some m => ⟨{ z with vehicles := scan.1 }, scan.2.2.1, some m⟩
  | none => ⟨{ z with vehicles := removeIds scan.1 scan.2.1 }, scan.2.2.1, none⟩

/-- The entry as left in the dict by one loop iteration (only the
left-the-city branch mutates the vehicle, setting its despawn flag). -/
def stepEntry (z : ZoneNode) (hasExchange : Bool) (publishOk : String → Bool)
    (e : String × Vehicle) : String × Vehicle :=
  match migStep z hasExchange publishOk e with
  | MigStepResult.err _ => e
  | MigStepResult.ok e2 _ _ => e2

/-- The removal-queue contribution of one loop iteration. -/
def stepRemove (z : ZoneNode) (hasExchange : Bool) (publishOk : String → Bool)
    (e : String × Vehicle) : Option String :=
  match migStep z hasExchange publishOk e with
  | MigStepResult.err _ => none
  | MigStepResult.ok _ rid _ => rid

/-- The published-payload contribution of one loop iteration. -/
def stepMsg (z : ZoneNode) (hasExchange : Bool) (publishOk : String → Bool)
    (e : String × Vehicle) : Option MigrationPayload :=
  match migStep z hasExchange publishOk e with
  | MigStepResult.err _ => none
  | MigStepResult.ok _ _ om => om

/-- Whether one loop iteration raises (the uncaught `vehicle.color`
attribute read). -/
def stepIsErr (z : ZoneNode) (hasExchange : Bool) (publishOk : String → Bool)
    (e : String × Vehicle) : Bool :=
  match migStep z hasExchange publishOk e with
  | MigStepResult.err _ => true
  | MigStepResult.ok _ _ _ => false

/-! ## Concrete instances used by closed theorems -/

/-- A stopped vehicle whose base speed is 0 (`original_speed = 0` is
accepted by the constructor; the stop invariant claim quantifies over every
vehicle). -/
def vehOrigZero : Vehicle :=
  { mkVehicle "v4" 10 10 0 none Dir.right "zA" with stopped := true }

/-- A normal moving vehicle used to witness the amended stop invariant. -/
def vehW4 : Vehicle := mkVehicle "v4w" 10 10 2 none Dir.right "zA"

/-- A freshly spawned vehicle heading right at speed 2. -/
def vehW8 : Vehicle := mkVehicle "v8" 0 0 2 none Dir.right "zA"

/-- A red light 8 px ahead of `vehW8` after its tentative move (cycle 100,
clock 60 is in the red window 55..100). -/
def tlRedW : TrafficLight := mkTrafficLight "L1" 50 0 12 36 Orient.vertical 100 60

/-- The bounds used by the cross-zone scenario: zone A covers x in [0,200),
zone B covers x in [200,400). -/
def rectA_C1 : PyRect := ⟨0, 0, 200, 200⟩

def rectB_C1 : PyRect := ⟨200, 0, 200, 200⟩

/-- The scenario vehicle: owned by A, moving right at speed 5 from x=196. -/
def vehC1 : Vehicle := mkVehicle "veh1" 196 90 5 none Dir.right "zoneA"

/-- The scenario vehicle after one tick of zone A (no lights or other
vehicles in its way). -/
def vehC1t : Vehicle := updateInZone vehC1 [] [] 200 200 0 0

/-- Zone A holding the just-ticked scenario vehicle, adjacent to B. -/
def zoneA_C1 : ZoneNode :=
  { zone_id := "zoneA"
    bounds := rectA_C1
    vehicles := [("veh1", vehC1t)]
    max_vehicles_in_zone := 20
    adjacencies := ["zoneB"]
    zones := [("zoneA", rectA_C1), ("zoneB", rectB_C1)]
    manual_spawn_pending := false }

/-- The scenario vehicle with a `color` attribute present, as the intended
code (and the superseded `environment/vehicle.py`) would have it. -/
def vehC1c : Vehicle := { vehC1t with color := some (200, 0, 0) }

/-- Zone A in the hypothetical color-fixed configuration. -/
def zoneAc_C1 : ZoneNode := { zoneA_C1 with vehicles := [("veh1", vehC1c)] }

/-- Empty zone B of the scenario. -/
def zoneB_C1 : ZoneNode :=
  { zone_id := "zoneB"
    bounds := rectB_C1
    vehicles := []
    max_vehicles_in_zone := 20
    adjacencies := ["zoneA"]
    zones := [("zoneA", rectA_C1), ("zoneB", rectB_C1)]
    manual_spawn_pending := false }

/-- The migration payload the color-fixed zone A publishes for the
scenario vehicle. -/
def payloadC1 : MigrationPayload := mkMigrationPayload "zoneA" vehC1c "zoneB" (200, 0, 0)

/-- A zone already holding a vehicle keyed v1 (for idempotent delivery). -/
def zIdemW : ZoneNode :=
  { zone_id := "zI"
    bounds := ⟨0, 0, 200, 200⟩
    vehicles := [("v1", mkVehicle "v1" 30 90 2 none Dir.right "zI")]
    max_vehicles_in_zone := 20
    adjacencies := []
    zones := []
    manual_spawn_pending := false }

/-- A migration message re-delivering vehicle v1. -/
def pIdemW : MigrationPayload :=
  mkMigrationPayload "zOther" (mkVehicle "v1" 30 90 2 none Dir.right "zOther")
    "zI" (128, 128, 128)

/-- A migration snapshot of a stopped vehicle (stopped = true, speed 0). -/
def pStopW : MigrationPayload :=
  mkMigrationPayload "zS"
    { mkVehicle "v10" 205 90 0 (some 3) Dir.right "zS" with stopped := true }
    "zT" (9, 9, 9)

/-- An empty receiving zone for the stopped-vehicle snapshot. -/
def zStopW : ZoneNode :=
  { zone_id := "zT"
    bounds := ⟨200, 0, 200, 200⟩
    vehicles := []
    max_vehicles_in_zone := 20
    adjacencies := []
    zones := []
    manual_spawn_pending := false }

/-- A zone at its capacity of 1. -/
def zFullW : ZoneNode :=
  { zone_id := "zF"
    bounds := ⟨0, 0, 200, 200⟩
    vehicles := [("a", mkVehicle "a" 1 1 2 none Dir.right "zF")]
    max_vehicles_in_zone := 1
    adjacencies := []
    zones := []
    manual_spawn_pending := false }

/-- An out-of-bounds vehicle (center x = 230) carrying a color attribute,
so the migration-out scan reaches the publish. -/
def vehOutC3 : Vehicle :=
  { mkVehicle "vx" 210 90 5 none Dir.right "zA" with color := some (128, 128, 128) }

/-- A zone whose only vehicle has crossed into adjacent zone zB. -/
def zC3 : ZoneNode :=
  { zone_id := "zA"
    bounds := ⟨0, 0, 200, 200⟩
    vehicles := [("vx", vehOutC3)]
    max_vehicles_in_zone := 20
    adjacencies := ["zB"]
    zones := [("zA", ⟨0, 0, 200, 200⟩), ("zB", ⟨200, 0, 200, 200⟩)]
    manual_spawn_pending := false }

/-! ## Theorems -/

/-- The per-tick advance keeps the timing table and cycle length and steps
the cycle clock by one, and the cached `state` tracks the recomputed one. -/
theorem update_async_fields (l : TrafficLight) :
    (update_async l).cycle_time = l.cycle_time ∧
    (update_async l).timings_green = l.timings_green ∧
    (update_async l).timings_yellow = l.timings_yellow ∧
    (update_async l).current_cycle_time = (l.current_cycle_time + 1) % l.cycle_time ∧
    (update_async l).state = l.stateAt ((l.current_cycle_time + 1) % l.cycle_time) := by
  unfold update_async
  by_cases h : l.stateAt ((l.current_cycle_time + 1) % l.cycle_time) ≠ l.state
  · rw [if_pos h]
    exact ⟨rfl, rfl, rfl, rfl, rfl⟩
  · rw [if_neg h]
    push_neg at h
    exact ⟨rfl, rfl, rfl, rfl, h.symm⟩

/-- `stateAt` only reads the timing table. -/
theorem stateAt_congr (l m : TrafficLight) (t : ℕ)
    (hg : l.timings_green = m.timings_green)
    (hy : l.timings_yellow = m.timings_yellow) :
    l.stateAt t = m.stateAt t := by
  unfold TrafficLight.stateAt
  rw [hg, hy]

/-- Iterating the per-tick advance N times lands on cycle clock
`(start + N) mod cycle` with the matching recomputed state. -/
theorem iterate_update_async (L : TrafficLight)
    (hcur : L.current_cycle_time < L.cycle_time)
    (hst : L.state = L.stateAt L.current_cycle_time) (N : ℕ) :
    (update_async^[N] L).timings_green = L.timings_green ∧
    (update_async^[N] L).timings_yellow = L.timings_yellow ∧
    (update_async^[N] L).cycle_time = L.cycle_time ∧
    (update_async^[N] L).current_cycle_time = (L.current_cycle_time + N) % L.cycle_time ∧
    (update_async^[N] L).state = L.stateAt ((L.current_cycle_time + N) % L.cycle_time) := by
  induction N with
  | zero =>
    refine ⟨rfl, rfl, rfl, ?_, ?_⟩
    · simpa using (Nat.mod_eq_of_lt hcur).symm
    · simpa [Nat.mod_eq_of_lt hcur] using hst
  | succ N ih =>
    obtain ⟨ihg, ihy, ihc, ihcur, ihst⟩ := ih
    obtain ⟨hfc, hfg, hfy, hfcur, hfst⟩ := update_async_fields (update_async^[N] L)
    rw [Function.iterate_succ_apply']
    refine ⟨hfg.trans ihg, hfy.trans ihy, hfc.trans ihc, ?_, ?_⟩
    · rw [hfcur, ihcur, ihc, Nat.mod_add_mod, Nat.add_assoc]
    · rw [hfst, ihcur, ihc, Nat.mod_add_mod, Nat.add_assoc]
      exact stateAt_congr _ _ _ ihg ihy

/-- C5: for every cycle_length, every initial offset, and every tick count
N, the traffic-light state reached by calling the per-tick advance
(`update_async`) N times starting from that offset equals the state given
by the direct formula (`_get_state_at_time`) applied to
(offset + N) mod cycle_length. -/
theorem light_determinism (id : String) (px py pw ph : ℤ) (o : Orient)
    (c t0 N : ℕ) (hc : 0 < c) :
    (update_async^[N] (mkTrafficLight id px py pw ph o c t0)).state
      = (mkTrafficLight id px py pw ph o c t0).stateAt ((t0 + N) % c) := by
  have hcur : (mkTrafficLight id px py pw ph o c t0).current_cycle_time
      < (mkTrafficLight id px py pw ph o c t0).cycle_time := Nat.mod_lt _ hc
  have hst : (mkTrafficLight id px py pw ph o c t0).state
      = (mkTrafficLight id px py pw ph o c t0).stateAt
          (mkTrafficLight id px py pw ph o c t0).current_cycle_time := rfl
  obtain ⟨-, -, -, -, h⟩ :=
    iterate_update_async (mkTrafficLight id px py pw ph o c t0) hcur hst N
  rw [h]
  show (mkTrafficLight id px py pw ph o c t0).stateAt ((t0 % c + N) % c) = _
  rw [Nat.mod_add_mod]

/-- Witness: a concrete instance of `light_determinism` with its hypothesis
discharged. -/
theorem light_determinism_witness :
    0 < 100 ∧
    (update_async^[163] (mkTrafficLight "tl" 0 0 12 36 Orient.vertical 100 7)).state
      = (mkTrafficLight "tl" 0 0 12 36 Orient.vertical 100 7).stateAt ((7 + 163) % 100) :=
  ⟨by decide, light_determinism "tl" 0 0 12 36 Orient.vertical 100 7 163 (by decide)⟩

/-- The direct formula reports green exactly on the green prefix of the
cycle. -/
theorem getStateAtTime_green_iff (g y t : ℕ) :
    getStateAtTime g y t = "green" ↔ t < g := by
  unfold getStateAtTime
  by_cases h1 : t < g
  · rw [if_pos h1]
    simpa using h1
  · rw [if_neg h1]
    by_cases h2 : t < g + y
    · rw [if_pos h2]
      constructor
      · intro h
        exact absurd h (by decide)
      · intro h
        exact absurd h h1
    · rw [if_neg h2]
      constructor
      · intro h
        exact absurd h (by decide)
      · intro h
        exact absurd h h1

/-- Natural division by a positive literal distributes sub-additively. -/
theorem nat_div_add_le (a b k : ℕ) (hk : 0 < k) : a / k + b / k ≤ (a + b) / k := by
  rw [Nat.le_div_iff_mul_le hk, Nat.add_mul]
  exact Nat.add_le_add (Nat.div_mul_le_self a k) (Nat.div_mul_le_self b k)

/-- Phases `n mod c` and `(11c/20 + n) mod c` are never both inside the
green prefix `9c/20` of a cycle of length `c`. -/
theorem green_phases_disjoint (c n : ℕ) (hc : 0 < c) (hA : n % c < 9 * c / 20) :
    ¬ (11 * c / 20 % c + n) % c < 9 * c / 20 := by
  have hoff : 11 * c / 20 < c := Nat.div_lt_of_lt_mul (by omega)
  have hsum : 9 * c / 20 + 11 * c / 20 ≤ c := by
    have h1 : 9 * c / 20 + 11 * c / 20 ≤ (9 * c + 11 * c) / 20 :=
      nat_div_add_le _ _ _ (by omega)
    omega
  have hgb : 9 * c / 20 ≤ 11 * c / 20 := Nat.div_le_div_right (by omega)
  have hmod : (11 * c / 20 % c + n) % c = 11 * c / 20 + n % c := by
    rw [Nat.mod_eq_of_lt hoff, Nat.add_mod, Nat.mod_eq_of_lt hoff]
    exact Nat.mod_eq_of_lt (by omega)
  rw [hmod]
  omega

/-- C7: for every pair of traffic lights sharing the same cycle_length,
one created with initial offset factor 0.0 and the other with factor 0.55
(as `ZoneMap.initialize_map_elements` configures the two perpendicular
pairs), there is no tick at which both are in the green state. -/
theorem phase_exclusivity (c n : ℕ) (hc : 0 < c) (idA idB : String)
    (xa ya wa ha xb yb wb hb : ℤ) :
    ¬ ((update_async^[n] (mkTrafficLight idA xa ya wa ha Orient.vertical c 0)).state
          = "green" ∧
       (update_async^[n] (mkTrafficLight idB xb yb wb hb Orient.horizontal c
          (offsetTicks55 c))).state = "green") := by
  rintro ⟨hA, hB⟩
  have hcurA : (mkTrafficLight idA xa ya wa ha Orient.vertical c 0).current_cycle_time
      < (mkTrafficLight idA xa ya wa ha Orient.vertical c 0).cycle_time := Nat.mod_lt _ hc
  have hcurB : (mkTrafficLight idB xb yb wb hb Orient.horizontal c
        (offsetTicks55 c)).current_cycle_time
      < (mkTrafficLight idB xb yb wb hb Orient.horizontal c
        (offsetTicks55 c)).cycle_time := Nat.mod_lt _ hc
  obtain ⟨-, -, -, -, hsA⟩ :=
    iterate_update_async (mkTrafficLight idA xa ya wa ha Orient.vertical c 0)
      hcurA rfl n
  obtain ⟨-, -, -, -, hsB⟩ :=
    iterate_update_async (mkTrafficLight idB xb yb wb hb Orient.horizontal c
      (offsetTicks55 c)) hcurB rfl n
  rw [hsA] at hA
  rw [hsB] at hB
  have hA2 : (0 % c + n) % c < timingGreen c :=
    (getStateAtTime_green_iff _ _ _).mp hA
  have hB2 : (offsetTicks55 c % c + n) % c < timingGreen c :=
    (getStateAtTime_green_iff _ _ _).mp hB
  have hA3 : n % c < 9 * c / 20 := by
    have h0 : (0 % c + n) % c = n % c := by
      rw [Nat.zero_mod, Nat.zero_add]
    rw [h0] at hA2
    exact hA2
  exact green_phases_disjoint c n hc hA3 hB2

/-- Witness: a concrete instance of `phase_exclusivity` with its hypothesis
discharged. -/
theorem phase_exclusivity_witness :
    0 < 300 ∧
    ¬ ((update_async^[42] (mkTrafficLight "tlE" 100 20 12 36 Orient.vertical 300 0)).state
          = "green" ∧
       (update_async^[42] (mkTrafficLight "tlN" 20 100 36 12 Orient.horizontal 300
          (offsetTicks55 300))).state = "green") :=
  ⟨by decide,
   phase_exclusivity 300 42 (by decide) "tlE" "tlN" 100 20 12 36 20 100 36 12⟩

/-- C6 counterexample: the spec formula `green_len = round(cycle_length*0.45)`
fails at cycle_length 6, where the code truncates `0.45 * 6 = 2.7` to 2
while rounding gives 3. -/
theorem phase_duration_round_counterexample :
    timingGreen 6 = 2 ∧ round ((6 : ℚ) * (45 / 100)) = 3 := by
  constructor
  · rfl
  · rw [round_eq]
    norm_num

/-- C6 amended: `TrafficLight.__init__` computes the phase durations by
truncation, `green_len = ⌊cycle_length * 0.45⌋` and
`yellow_len = ⌊cycle_length * 0.10⌋` (Python `int()` of the float product),
with `red_len = cycle_length - green_len - yellow_len` absorbing the
remainder so that the three durations sum to the cycle length exactly. -/
theorem phase_duration_formula (c : ℕ) :
    (timingGreen c : ℤ) = ⌊(c : ℚ) * (45 / 100)⌋ ∧
    (timingYellow c : ℤ) = ⌊(c : ℚ) * (10 / 100)⌋ ∧
    timingRed c = c - timingGreen c - timingYellow c ∧
    timingGreen c + timingYellow c + timingRed c = c := by
  refine ⟨?_, ?_, ?_, ?_⟩
  · have hq : (c : ℚ) * (45 / 100) = ((9 * c : ℕ) : ℚ) / ((20 : ℕ) : ℚ) := by
      push_cast
      ring
    have hnn : (0 : ℚ) ≤ (c : ℚ) * (45 / 100) := by positivity
    rw [← Int.natCast_floor_eq_floor hnn, hq, Nat.floor_div_eq_div]
    rfl
  · have hq : (c : ℚ) * (10 / 100) = ((c : ℕ) : ℚ) / ((10 : ℕ) : ℚ) := by
      push_cast
      ring
    have hnn : (0 : ℚ) ≤ (c : ℚ) * (10 / 100) := by positivity
    rw [← Int.natCast_floor_eq_floor hnn, hq, Nat.floor_div_eq_div]
    rfl
  · unfold timingRed
    omega
  · unfold timingRed timingGreen timingYellow
    omega

/-- The tentative move leaves the motion-state fields untouched. -/
theorem tentativeMove_fields (v : Vehicle) (ox oy : ℤ) :
    (tentativeMove v ox oy).stopped = v.stopped ∧
    (tentativeMove v ox oy).speed = v.speed ∧
    (tentativeMove v ox oy).original_speed = v.original_speed := by
  unfold tentativeMove moveByDirection
  cases v.direction <;> exact ⟨rfl, rfl, rfl⟩

/-- The tentative move ignores the incoming collision rect (it overwrites
it from the new position). -/
theorem tentativeMove_rect_indep (v : Vehicle) (r : PyRect) (ox oy : ℤ) :
    tentativeMove { v with rect := r } ox oy = tentativeMove v ox oy := by
  unfold tentativeMove moveByDirection localRectOf
  cases v.direction <;> rfl

/-- The movement phase preserves `stopped == (speed == 0)` for a vehicle
that enters it unstopped with a nonzero base speed. -/
theorem updateMovePhase_stop_invariant (v : Vehicle)
    (lights : List TrafficLight) (vehs : List Vehicle) (ox oy : ℤ)
    (oldX oldY : ℚ) (oldRect : PyRect)
    (hs : v.stopped = false) (ho : v.original_speed ≠ 0) :
    ((updateMovePhase v lights vehs ox oy oldX oldY oldRect).stopped = true
      ↔ (updateMovePhase v lights vehs ox oy oldX oldY oldRect).speed = 0) := by
  obtain ⟨hms, hmsp, hmo⟩ := tentativeMove_fields v ox oy
  unfold updateMovePhase
  by_cases h1 : checkActionAtLightLocal (tentativeMove v ox oy) lights = "stop"
  · rw [if_pos h1]
    simp [Vehicle.stop, hms, hs]
  · rw [if_neg h1]
    by_cases h2 : hasFrontCollision (tentativeMove v ox oy) vehs
    · rw [if_pos h2]
      simp [Vehicle.stop, hms, hs]
    · rw [if_neg h2]
      by_cases h3 : (tentativeMove v ox oy).stopped = false ∧
          (tentativeMove v ox oy).speed = 0
      · rw [if_pos h3]
        simp [Vehicle.resume_speed, hms, hmo, hs, ho]
      · rw [if_neg h3]
        have hsp : (tentativeMove v ox oy).speed ≠ 0 := by
          intro h
          exact h3 ⟨by rw [hms, hs], h⟩
        simp [hms, hs, hsp]

/-- C4 counterexample: the claim fails for a stopped vehicle whose base
speed is 0: one update resumes it (`stopped = false`) but `resume_speed`
restores speed 0, so afterwards `stopped == (speed == 0)` is violated even
though it held before the call. -/
theorem stop_invariant_counterexample :
    vehOrigZero.stopped = true ∧ vehOrigZero.speed = 0 ∧
    (vehOrigZero.stopped = true ↔ vehOrigZero.speed = 0) ∧
    ¬ ((updateInZone vehOrigZero [] [] 200 200 0 0).stopped = true
        ↔ (updateInZone vehOrigZero [] [] 200 200 0 0).speed = 0) := by
  refine ⟨by decide, by decide, by decide, ?_⟩
  intro h
  have h1 : (updateInZone vehOrigZero [] [] 200 200 0 0).stopped = false := by decide
  have h2 : (updateInZone vehOrigZero [] [] 200 200 0 0).speed = 0 := by decide
  rw [h1, h2] at h
  exact absurd (h.mpr rfl) (by decide)

/-- C4 amended: for every vehicle whose base speed is nonzero (true of
every vehicle the engine spawns or migrates in a run) and every call to
`update_in_zone` with any lights and vehicles, `stopped == (speed == 0.0)`
holds afterwards provided it held before. -/
theorem stop_invariant (v : Vehicle) (lights : List TrafficLight)
    (vehs : List Vehicle) (zw zh ox oy : ℤ)
    (horig : v.original_speed ≠ 0)
    (hpre : v.stopped = true ↔ v.speed = 0) :
    ((updateInZone v lights vehs zw zh ox oy).stopped = true
      ↔ (updateInZone v lights vehs zw zh ox oy).speed = 0) := by
  unfold updateInZone
  by_cases hd : v.is_despawned_globally
  · rw [if_pos hd]
    exact hpre
  · rw [if_neg hd]
    by_cases hs : v.stopped
    · rw [if_pos hs]
      by_cases ha : checkActionAtLightLocal { v with rect := localRectOf v ox oy }
          lights = "proceed"
      · rw [if_pos ha]
        have hres : (Vehicle.resume { v with rect := localRectOf v ox oy }).stopped = false ∧
            (Vehicle.resume { v with rect := localRectOf v ox oy }).original_speed
              = v.original_speed := by
          simp [Vehicle.resume, Vehicle.resume_speed, hs]
        refine updateMovePhase_stop_invariant _ lights vehs ox oy _ _ _ hres.1 ?_
        rw [hres.2]
        exact horig
      · rw [if_neg ha]
        exact hpre
    · rw [if_neg hs]
      have hs0 : v.stopped = false := by
        cases h : v.stopped
        · rfl
        · exact absurd h hs
      exact updateMovePhase_stop_invariant _ lights vehs ox oy _ _ _ hs0 horig

/-- Witness: a concrete instance of the amended stop invariant with its
hypotheses discharged. -/
theorem stop_invariant_witness :
    vehW4.original_speed ≠ 0 ∧
    ((updateInZone vehW4 [] [] 200 200 0 0).stopped = true
      ↔ (updateInZone vehW4 [] [] 200 200 0 0).speed = 0) :=
  ⟨by decide, stop_invariant vehW4 [] [] 200 200 0 0 (by decide) (by decide)⟩

/-- C8: a moving (not stopped) vehicle whose relevant traffic light after
the tentative move is red, with the stop-edge distance inside the stopping
threshold and not past the stop-line limit, has its tentative advance
reverted by one `update_in_zone` call (position unchanged) and ends that
same tick with `stopped = true` and `speed = 0`. -/
theorem red_light_stop (v : Vehicle) (lights : List TrafficLight)
    (vehs : List Vehicle) (zw zh ox oy : ℤ) (l : TrafficLight)
    (hnd : v.is_despawned_globally = false)
    (hns : v.stopped = false)
    (hrel : getRelevantLightLocal (tentativeMove v ox oy) lights = some l)
    (hred : l.state = "red")
    (hd1 : ((distToLightEdge (tentativeMove v ox oy) l : ℤ) : ℚ)
        < stoppingDecisionThreshold (tentativeMove v ox oy))
    (hd2 : stopPastLineThreshold (tentativeMove v ox oy)
        < ((distToLightEdge (tentativeMove v ox oy) l : ℤ) : ℚ)) :
    (updateInZone v lights vehs zw zh ox oy).global_x = v.global_x ∧
    (updateInZone v lights vehs zw zh ox oy).global_y = v.global_y ∧
    (updateInZone v lights vehs zw zh ox oy).stopped = true ∧
    (updateInZone v lights vehs zw zh ox oy).speed = 0 := by
  have hact : checkActionAtLightLocal (tentativeMove v ox oy) lights = "stop" := by
    simp only [checkActionAtLightLocal, hrel]
    rw [if_pos ⟨hd1, hd2⟩, if_pos hred]
  obtain ⟨hms, -, -⟩ := tentativeMove_fields v ox oy
  unfold updateInZone
  rw [if_neg (by rw [hnd]; exact Bool.false_ne_true)]
  rw [if_neg (by rw [hns]; exact Bool.false_ne_true)]
  unfold updateMovePhase
  rw [tentativeMove_rect_indep]
  rw [if_pos hact]
  have hstop : (tentativeMove v ox oy).stopped = false := by rw [hms, hns]
  simp [Vehicle.stop, hstop]

/-- Witness: a concrete instance of `red_light_stop` with its hypotheses
discharged: `vehW8` at x = 0 moving right at speed 2 toward the red light
`tlRedW` 8 px ahead of its moved nose. -/
theorem red_light_stop_witness :
    vehW8.is_despawned_globally = false ∧ vehW8.stopped = false ∧
    getRelevantLightLocal (tentativeMove vehW8 0 0) [tlRedW] = some tlRedW ∧
    tlRedW.state = "red" ∧
    ((distToLightEdge (tentativeMove vehW8 0 0) tlRedW : ℤ) : ℚ)
        < stoppingDecisionThreshold (tentativeMove vehW8 0 0) ∧
    stopPastLineThreshold (tentativeMove vehW8 0 0)
        < ((distToLightEdge (tentativeMove vehW8 0 0) tlRedW : ℤ) : ℚ) ∧
    ((updateInZone vehW8 [tlRedW] [] 200 200 0 0).global_x = vehW8.global_x ∧
     (updateInZone vehW8 [tlRedW] [] 200 200 0 0).global_y = vehW8.global_y ∧
     (updateInZone vehW8 [tlRedW] [] 200 200 0 0).stopped = true ∧
     (updateInZone vehW8 [tlRedW] [] 200 200 0 0).speed = 0) :=
  ⟨by decide, by decide, by with_unfolding_all decide, by decide,
   by with_unfolding_all decide, by with_unfolding_all decide,
   red_light_stop vehW8 [tlRedW] [] 200 200 0 0 tlRedW (by decide) (by decide)
     (by with_unfolding_all decide) (by decide)
     (by with_unfolding_all decide) (by with_unfolding_all decide)⟩

/-- C9: a spawn attempted at or above capacity inserts nothing and raises
no error (and the manual trigger reports failure without queuing), so
spawning never pushes a zone beyond its configured capacity. -/
theorem spawn_capacity (z : ZoneNode) (sps : List SpawnPoint) (pick : ℕ)
    (new_id : String) (spd : ℚ) :
    (z.max_vehicles_in_zone ≤ z.vehicles.length →
      spawnNewVehicleAtEntry z sps pick new_id spd = z ∧
      triggerManualSpawn z = (z, false)) ∧
    (z.vehicles.length ≤ z.max_vehicles_in_zone →
      (spawnNewVehicleAtEntry z sps pick new_id spd).vehicles.length
        ≤ z.max_vehicles_in_zone) := by
  constructor
  · intro h
    constructor
    · unfold spawnNewVehicleAtEntry
      rw [if_pos h]
    · unfold triggerManualSpawn
      rw [if_neg (by omega)]
  · intro h
    unfold spawnNewVehicleAtEntry
    by_cases hc : z.max_vehicles_in_zone ≤ z.vehicles.length
    · rw [if_pos hc]
      exact h
    · rw [if_neg hc]
      cases hsp : sps[pick]? with
      | none => exact h
      | some sp =>
        show (z.vehicles ++ [(new_id, _)]).length ≤ z.max_vehicles_in_zone
        rw [List.length_append]
        simp only [List.length_cons, List.length_nil]
        omega

/-- Witness: spawning and manual triggering on a zone at capacity leave it
unchanged. -/
theorem spawn_capacity_witness :
    zFullW.max_vehicles_in_zone ≤ zFullW.vehicles.length ∧
    (spawnNewVehicleAtEntry zFullW [⟨20, 100, Dir.right⟩] 0 "new" 2 = zFullW ∧
     triggerManualSpawn zFullW = (zFullW, false)) :=
  ⟨by decide,
   (spawn_capacity zFullW [⟨20, 100, Dir.right⟩] 0 "new" 2).1 (by decide)⟩

/-- C10: an accepted inbound migration reconstructs the vehicle with
`stopped = false` regardless of the snapshot `stopped` flag (which the
sender does serialize into the message), while the snapshot speed --
possibly 0.0 -- is kept. -/
theorem migration_in_resets_stopped (z : ZoneNode) (p : MigrationPayload)
    (vid : String) (s : ℚ)
    (hid : p.vehicle_state.id = some vid) (hvid : vid ≠ "")
    (hnot : containsVeh z vid = false)
    (hcap : z.vehicles.length < z.max_vehicles_in_zone)
    (hspd : p.vehicle_state.speed = some s) :
    (handleIncomingVehicleMigration z p).vehicles
      = z.vehicles ++ [(vid, reconstructMigratedVehicle z.zone_id p.vehicle_state vid)] ∧
    (reconstructMigratedVehicle z.zone_id p.vehicle_state vid).stopped = false ∧
    (reconstructMigratedVehicle z.zone_id p.vehicle_state vid).speed = s ∧
    (∀ (zid tz : String) (veh : Vehicle) (c : ℕ × ℕ × ℕ),
      (mkMigrationPayload zid veh tz c).vehicle_state.stopped = veh.stopped) := by
  refine ⟨?_, rfl, ?_, fun _ _ _ _ => rfl⟩
  · simp only [handleIncomingVehicleMigration, hid]
    rw [if_neg hvid, if_neg (by rw [hnot]; exact Bool.false_ne_true),
      if_neg (by omega)]
  · show p.vehicle_state.speed.getD (p.vehicle_state.original_speed.getD 2) = s
    rw [hspd]
    rfl

/-- Witness: the stopped-vehicle snapshot `pStopW` (stopped = true,
speed = 0) is accepted by the empty zone `zStopW` and reconstructed
unstopped with speed 0. -/
theorem migration_in_resets_stopped_witness :
    pStopW.vehicle_state.id = some "v10" ∧ pStopW.vehicle_state.stopped = true ∧
    ((handleIncomingVehicleMigration zStopW pStopW).vehicles
      = zStopW.vehicles ++
          [("v10", reconstructMigratedVehicle zStopW.zone_id pStopW.vehicle_state "v10")] ∧
     (reconstructMigratedVehicle zStopW.zone_id pStopW.vehicle_state "v10").stopped = false ∧
     (reconstructMigratedVehicle zStopW.zone_id pStopW.vehicle_state "v10").speed = 0 ∧
     (∀ (zid tz : String) (veh : Vehicle) (c : ℕ × ℕ × ℕ),
       (mkMigrationPayload zid veh tz c).vehicle_state.stopped = veh.stopped)) :=
  ⟨by decide, by decide,
   migration_in_resets_stopped zStopW pStopW "v10" 0 (by decide) (by decide)
     (by decide) (by decide) (by decide)⟩

/-- Entries whose key does not occur are dropped by a key filter. -/
theorem filter_key_nil_of_not_mem (l : List (String × Vehicle)) (vid : String)
    (h : vid ∉ l.map Prod.fst) : l.filter (fun e => e.1 == vid) = [] := by
  induction l with
  | nil => rfl
  | cons e t ih =>
    simp only [List.map_cons, List.mem_cons, not_or] at h
    rw [List.filter_cons, if_neg ?_]
    · exact ih h.2
    · rw [beq_iff_eq]
      intro hh
      exact h.1 hh.symm

/-- In a unique-key list a present key is stored exactly once. -/
theorem filter_key_singleton (l : List (String × Vehicle)) (vid : String)
    (h : (l.map Prod.fst).Nodup) (hc : l.any (fun e => e.1 == vid) = true) :
    (l.filter (fun e => e.1 == vid)).length = 1 := by
  induction l with
  | nil => simp at hc
  | cons e t ih =>
    simp only [List.map_cons, List.nodup_cons] at h
    rw [List.filter_cons]
    by_cases hb : (e.1 == vid) = true
    · rw [if_pos hb]
      rw [beq_iff_eq] at hb
      rw [filter_key_nil_of_not_mem t vid (hb ▸ h.1)]
      rfl
    · rw [if_neg hb]
      refine ih h.2 ?_
      rw [List.any_cons] at hc
      simpa [hb] using hc

/-- C2: delivering a migration message whose vehicle id is already present
leaves the vehicle set unchanged; delivering the same message twice is the
same as delivering it once, and whenever the id is present after the first
delivery there is exactly one vehicle stored under it afterwards. -/
theorem migration_idempotency (z : ZoneNode) (p : MigrationPayload) (vid : String)
    (hkeys : (z.vehicles.map Prod.fst).Nodup)
    (hid : p.vehicle_state.id = some vid) :
    (containsVeh z vid = true → handleIncomingVehicleMigration z p = z) ∧
    handleIncomingVehicleMigration (handleIncomingVehicleMigration z p) p
      = handleIncomingVehicleMigration z p ∧
    (containsVeh (handleIncomingVehicleMigration z p) vid = true →
      countVeh (handleIncomingVehicleMigration (handleIncomingVehicleMigration z p) p)
        vid = 1) := by
  have hpresent : ∀ w : ZoneNode, containsVeh w vid = true →
      handleIncomingVehicleMigration w p = w := by
    intro w hw
    simp only [handleIncomingVehicleMigration, hid]
    by_cases h0 : vid = ""
    · rw [if_pos h0]
    · rw [if_neg h0, if_pos hw]
  have hcases : handleIncomingVehicleMigration z p = z ∨
      (containsVeh z vid = false ∧
       (handleIncomingVehicleMigration z p).vehicles
         = z.vehicles ++ [(vid, reconstructMigratedVehicle z.zone_id p.vehicle_state vid)]) := by
    simp only [handleIncomingVehicleMigration, hid]
    by_cases h0 : vid = ""
    · rw [if_pos h0]
      exact Or.inl rfl
    · rw [if_neg h0]
      by_cases h1 : containsVeh z vid
      · rw [if_pos h1]
        exact Or.inl rfl
      · rw [if_neg h1]
        by_cases h2 : z.max_vehicles_in_zone ≤ z.vehicles.length
        · rw [if_pos h2]
          exact Or.inl rfl
        · rw [if_neg h2]
          exact Or.inr ⟨by simpa using h1, rfl⟩
  have hafter : containsVeh (handleIncomingVehicleMigration z p) vid = true →
      handleIncomingVehicleMigration (handleIncomingVehicleMigration z p) p
        = handleIncomingVehicleMigration z p :=
    fun hw => hpresent _ hw
  refine ⟨hpresent z, ?_, ?_⟩
  · rcases hcases with hz | ⟨hnc, hins⟩
    · rw [hz, hz]
    · refine hafter ?_
      unfold containsVeh
      rw [hins, List.any_append]
      simp
  · intro hc
    rw [hafter hc]
    rcases hcases with hz | ⟨hnc, hins⟩
    · rw [hz] at hc ⊢
      exact filter_key_singleton z.vehicles vid hkeys hc
    · show ((handleIncomingVehicleMigration z p).vehicles.filter
          (fun e => e.1 == vid)).length = 1
      rw [hins]
      refine filter_key_singleton _ vid ?_ ?_
      · rw [List.map_append, List.nodup_append]
        refine ⟨hkeys, by simp, ?_⟩
        intro a ha hb
        simp only [List.map_cons, List.map_nil, List.mem_singleton] at hb
        subst hb
        rw [List.mem_map] at ha
        obtain ⟨e, he, hke⟩ := ha
        have hany : z.vehicles.any (fun e => e.1 == a) = true := by
          rw [List.any_eq_true]
          exact ⟨e, he, by rw [beq_iff_eq]; exact hke⟩
        unfold containsVeh at hnc
        rw [hany] at hnc
        exact absurd hnc (by decide)
      · rw [List.any_append]
        simp

/-- Witness: re-delivering `pIdemW` to `zIdemW`, which already holds v1,
keeps the zone unchanged with exactly one v1. -/
theorem migration_idempotency_witness :
    (zIdemW.vehicles.map Prod.fst).Nodup ∧
    (containsVeh zIdemW "v1" = true → handleIncomingVehicleMigration zIdemW pIdemW = zIdemW) ∧
    handleIncomingVehicleMigration (handleIncomingVehicleMigration zIdemW pIdemW) pIdemW
      = handleIncomingVehicleMigration zIdemW pIdemW ∧
    (containsVeh (handleIncomingVehicleMigration zIdemW pIdemW) "v1" = true →
      countVeh (handleIncomingVehicleMigration
        (handleIncomingVehicleMigration zIdemW pIdemW) pIdemW) "v1" = 1) :=
  ⟨by decide, migration_idempotency zIdemW pIdemW "v1" (by decide) (by decide)⟩

/-- A loop iteration that returns normally keeps the entry key and only
ever queues that same key for removal. -/
theorem migStep_ok_shape (z : ZoneNode) (b : Bool) (pub : String → Bool)
    (e : String × Vehicle) (e2 : String × Vehicle) (rid : Option String)
    (om : Option MigrationPayload)
    (h : migStep z b pub e = MigStepResult.ok e2 rid om) :
    e2.1 = e.1 ∧ (rid = none ∨ rid = some e.1) := by
  unfold migStep at h
  dsimp only at h
  by_cases h1 : e.2.is_despawned_globally = true
  · rw [if_pos h1] at h
    injection h with hA hB hC
    subst hA hB
    exact ⟨rfl, Or.inr rfl⟩
  · rw [if_neg h1] at h
    by_cases h2 : z.bounds.collidepoint (getGlobalRect e.2).centerx
        (getGlobalRect e.2).centery
    · rw [if_pos h2] at h
      injection h with hA hB hC
      subst hA hB
      exact ⟨rfl, Or.inl rfl⟩
    · rw [if_neg h2] at h
      rcases ht : determineTargetZone z e.2 with - | tz <;> rw [ht] at h <;>
        dsimp only at h
      · injection h with hA hB hC
        subst hB
        refine ⟨?_, Or.inr rfl⟩
        rw [← hA]
      · rcases hcv : e.2.color with - | c <;> rw [hcv] at h <;> dsimp only at h
        · exact absurd h (by simp)
        · by_cases h3 : b = true
          · rw [if_pos h3] at h
            by_cases h4 : pub tz = true
            · rw [if_pos h4] at h
              injection h with hA hB hC
              subst hA hB
              exact ⟨rfl, Or.inr rfl⟩
            · rw [if_neg h4] at h
              injection h with hA hB hC
              subst hA hB
              exact ⟨rfl, Or.inl rfl⟩
          · rw [if_neg h3] at h
            injection h with hA hB hC
            subst hA hB
            exact ⟨rfl, Or.inl rfl⟩

/-- When no iteration raises, the scan is elementwise: entries are mapped,
and the removal queue and published payloads are collected by filtering. -/
theorem migScan_no_error (z : ZoneNode) (b : Bool) (pub : String → Bool)
    (l : List (String × Vehicle))
    (h : ∀ e ∈ l, stepIsErr z b pub e = false) :
    migScan z b pub l =
      (l.map (stepEntry z b pub), l.filterMap (stepRemove z b pub),
       l.filterMap (stepMsg z b pub), none) := by
  induction l with
  | nil => rfl
  | cons e t ih =>
    have he := h e (List.mem_cons_self e t)
    unfold migScan
    cases hm : migStep z b pub e with
    | err m =>
      unfold stepIsErr at he
      rw [hm] at he
      simp at he
    | ok e2 rid om =>
      rw [ih (fun x hx => h x (List.mem_cons_of_mem e hx))]
      simp only [List.map_cons, List.filterMap_cons, stepEntry, stepRemove,
        stepMsg, hm]
      cases rid <;> cases om <;> rfl

/-- Membership after the deletion pass: kept iff present and not queued. -/
theorem mem_removeIds (ids : List String) (vs : List (String × Vehicle))
    (e : String × Vehicle) :
    e ∈ removeIds vs ids ↔ e ∈ vs ∧ e.1 ∉ ids := by
  induction ids generalizing vs with
  | nil => simp [removeIds]
  | cons i t ih =>
    unfold removeIds
    rw [List.foldl_cons]
    have hstep := ih (vs.filter (fun x => x.1 ≠ i))
    unfold removeIds at hstep
    rw [hstep, List.mem_filter]
    simp only [List.mem_cons, decide_eq_true_eq]
    constructor
    · rintro ⟨⟨hv, hne⟩, hnt⟩
      exact ⟨hv, by simp [hne, hnt]⟩
    · rintro ⟨hv, hn⟩
      simp only [not_or] at hn
      exact ⟨⟨hv, hn.1⟩, hn.2⟩

/-- C3 counterexample: optimistic removal does not happen.  A vehicle that
has left its zone with a determined adjacent target is NOT removed from the
sender when the publish fails: the error is caught (no exception escapes),
nothing is published, and the vehicle is still in the sender's set. -/
theorem optimistic_removal_counterexample :
    ¬ zC3.bounds.collidepoint (getGlobalRect vehOutC3).centerx
        (getGlobalRect vehOutC3).centery ∧
    determineTargetZone zC3 vehOutC3 = some "zB" ∧
    (checkAndHandleMigrationsOut zC3 true (fun _ => false)).error = none ∧
    containsVeh (checkAndHandleMigrationsOut zC3 true (fun _ => false)).zone "vx"
      = true ∧
    (checkAndHandleMigrationsOut zC3 true (fun _ => false)).published = [] := by
  refine ⟨by with_unfolding_all decide, by with_unfolding_all decide,
    by with_unfolding_all decide, by with_unfolding_all decide,
    by with_unfolding_all decide⟩

/-- C3 amended: in a migration-out scan in which no iteration raises the
`vehicle.color` AttributeError, a vehicle whose center has left the zone
and whose target zone was determined is removed from the sender exactly
when the publish for it succeeds; on publish failure the error is caught
(the tick continues) and the vehicle remains in the sender's set. -/
theorem removal_requires_publish_success (z : ZoneNode) (pub : String → Bool)
    (vid : String) (veh : Vehicle) (tz : String)
    (hkeys : (z.vehicles.map Prod.fst).Nodup)
    (hmem : (vid, veh) ∈ z.vehicles)
    (hnoerr : ∀ e ∈ z.vehicles, stepIsErr z true pub e = false)
    (hnd : veh.is_despawned_globally = false)
    (hout : ¬ z.bounds.collidepoint (getGlobalRect veh).centerx
        (getGlobalRect veh).centery)
    (htz : determineTargetZone z veh = some tz)
    (hcol : veh.color ≠ none) :
    (checkAndHandleMigrationsOut z true pub).error = none ∧
    containsVeh (checkAndHandleMigrationsOut z true pub).zone vid = ! pub tz := by
  rcases hcv : veh.color with - | c
  · exact absurd hcv hcol
  have hstep : migStep z true pub (vid, veh) =
      (if pub tz then
        MigStepResult.ok (vid, veh) (some vid)
          (some (mkMigrationPayload z.zone_id veh tz c))
      else MigStepResult.ok (vid, veh) none none) := by
    unfold migStep
    dsimp only
    rw [if_neg (show ¬ veh.is_despawned_globally = true by
      rw [hnd]; exact Bool.false_ne_true)]
    rw [if_neg hout, htz]
    dsimp only
    rw [hcv]
    dsimp only
    rw [if_pos (show (true : Bool) = true from rfl)]
  have hscan := migScan_no_error z true pub z.vehicles hnoerr
  have hres : checkAndHandleMigrationsOut z true pub =
      MigOutResult.mk
        { z with
            vehicles :=
              removeIds (z.vehicles.map (stepEntry z true pub))
                (z.vehicles.filterMap (stepRemove z true pub)) }
        (z.vehicles.filterMap (stepMsg z true pub)) none := by
    unfold checkAndHandleMigrationsOut
    rw [hscan]
  rw [hres]
  refine ⟨rfl, ?_⟩
  have hrid : stepRemove z true pub (vid, veh) = (if pub tz then some vid else none) := by
    unfold stepRemove
    rw [hstep]
    by_cases hp : pub tz
    · rw [if_pos hp, if_pos hp]
    · rw [if_neg hp, if_neg hp]
  have hent : stepEntry z true pub (vid, veh) = (vid, veh) := by
    unfold stepEntry
    rw [hstep]
    by_cases hp : pub tz
    · rw [if_pos hp]
    · rw [if_neg hp]
  show (removeIds (z.vehicles.map (stepEntry z true pub))
      (z.vehicles.filterMap (stepRemove z true pub))).any (fun e => e.1 == vid)
      = ! pub tz
  by_cases hp : pub tz
  · rw [hp]
    show _ = false
    rw [List.any_eq_false]
    intro e hein hkey
    rw [beq_iff_eq] at hkey
    rw [mem_removeIds] at hein
    refine hein.2 ?_
    rw [hkey, List.mem_filterMap]
    refine ⟨(vid, veh), hmem, ?_⟩
    rw [hrid, if_pos hp]
  · have hp0 : pub tz = false := by
      cases hpt : pub tz
      · rfl
      · exact absurd hpt hp
    rw [hp0]
    show _ = true
    rw [List.any_eq_true]
    refine ⟨(vid, veh), ?_, by rw [beq_iff_eq]⟩
    rw [mem_removeIds]
    constructor
    · exact List.mem_map.mpr ⟨(vid, veh), hmem, hent⟩
    · intro hvin
      rw [List.mem_filterMap] at hvin
      obtain ⟨e0, he0, hr0⟩ := hvin
      have hsh : stepRemove z true pub e0 = none ∨
          stepRemove z true pub e0 = some e0.1 := by
        unfold stepRemove
        cases hm : migStep z true pub e0 with
        | err m => exact Or.inl rfl
        | ok e2 rid om => exact (migStep_ok_shape z true pub e0 e2 rid om hm).2
      rcases hsh with h0 | h0
      · rw [h0] at hr0
        exact absurd hr0 (by simp)
      · rw [h0] at hr0
        have hk : e0.1 = vid := by
          have := hr0
          injection this
        have he : e0 = (vid, veh) := by
          refine List.inj_on_of_nodup_map hkeys he0 hmem ?_
          exact hk
        rw [he] at h0
        rw [hrid, if_neg hp] at h0
        exact absurd h0.symm (by simp)

/-- Witness: a concrete instance of `removal_requires_publish_success`
with its hypotheses discharged (single out-of-bounds vehicle, publish
fails, vehicle stays). -/
theorem removal_requires_publish_success_witness :
    (zC3.vehicles.map Prod.fst).Nodup ∧
    ((checkAndHandleMigrationsOut zC3 true (fun _ => false)).error = none ∧
     containsVeh (checkAndHandleMigrationsOut zC3 true (fun _ => false)).zone "vx"
       = true) :=
  ⟨by decide,
   removal_requires_publish_success zC3 (fun _ => false) "vx" vehOutC3 "zB"
     (by decide) (by with_unfolding_all decide) (by with_unfolding_all decide)
     (by decide) (by with_unfolding_all decide) (by with_unfolding_all decide)
     (by decide)⟩

/-- C1: evaluation of the cross-zone scenario (zone A x in [0,200), zone B
x in [200,400), vehicle at x=196 moving right at speed 5).  One tick takes
the vehicle to x=201, but the migration-out scan reads `vehicle.color`,
which `core.Vehicle.__init__` never assigns, so it raises AttributeError:
the vehicle is NOT removed from A and nothing reaches B.  With the color
attribute present (as in the superseded `environment/vehicle.py`), the
same scan removes the vehicle from A, publishes to B, and B inserts a
vehicle with the same id and x = 201 ≥ 200 -- the behaviour the scenario
describes. -/
theorem cross_zone_migration_blocked_by_missing_color :
    vehC1t.global_x = 201 ∧
    ((checkAndHandleMigrationsOut zoneA_C1 true (fun _ => true)).error
        = some "AttributeError: Vehicle has no attribute color" ∧
     containsVeh (checkAndHandleMigrationsOut zoneA_C1 true (fun _ => true)).zone
        "veh1" = true ∧
     (checkAndHandleMigrationsOut zoneA_C1 true (fun _ => true)).published = []) ∧
    ((checkAndHandleMigrationsOut zoneAc_C1 true (fun _ => true)).error = none ∧
     containsVeh (checkAndHandleMigrationsOut zoneAc_C1 true (fun _ => true)).zone
        "veh1" = false ∧
     (checkAndHandleMigrationsOut zoneAc_C1 true (fun _ => true)).published
        = [payloadC1] ∧
     containsVeh (handleIncomingVehicleMigration zoneB_C1 payloadC1) "veh1" = true ∧
     ∀ e ∈ (handleIncomingVehicleMigration zoneB_C1 payloadC1).vehicles,
        e.2.global_x = 201 ∧ (200 : ℚ) ≤ e.2.global_x) := by
  refine ⟨?_, ⟨?_, ?_, ?_⟩, ⟨?_, ?_, ?_, ?_, ?_⟩⟩ <;> with_unfolding_all decide

end SimTraffic
